import Mathlib

/-!
Shallow embedding of `src/Restaurant-Data.py` (a Streamlit script that
geocodes a free-text location, fetches nearby restaurants from an
Overpass-style POI service, normalizes the raw elements into records,
derives a cuisine label set, and filters records by cuisine).

Network calls are modelled by passing the call's outcome as an input:
the geocode HTTP interaction is an `Except String GeoResponse` (a
transport error, or a response with a status code and a parsed JSON
result list), and the Overpass interaction is a `FetchResult` (an
exception anywhere in the try-block, or a parsed `elements` list).
Python floats carry no arithmetic here, only storage and truthiness
tests, so they are modelled as rationals; Python `None` is `Option.none`.
-/

/-- Python whitespace characters recognised by `str.strip()`. -/
def isPySpace (c : Char) : Bool :=
  c = ' ' || c = '\t' || c = '\n' || c = '\x0b' || c = '\x0c' || c = '\r'

/-- Python `s.strip()`: drop whitespace from both ends. -/
def pyStrip (s : String) : String :=
  ⟨((s.toList.dropWhile isPySpace).reverse.dropWhile isPySpace).reverse⟩

/-- Python `s.lower()` (ASCII case folding, which covers every string in play). -/
def pyLower (s : String) : String :=
  ⟨s.toList.map Char.toLower⟩

/-- Python `s.replace(';', ',')`: single-character replacement at every occurrence. -/
def replaceSemi (s : String) : String :=
  ⟨s.toList.map (fun c => if c = ';' then ',' else c)⟩

/-- Python `s.split(',')` on the character list: no collapsing of empty parts,
`[]` (empty string) splits to one empty part. -/
def splitOnCommaList : List Char → List (List Char)
  | [] => [[]]
  | c :: cs =>
    let r := splitOnCommaList cs
    if c = ',' then [] :: r
    else
      match r with
      | [] => [[c]]
      | h :: t => (c :: h) :: t

/-- Python `s.split(',')`. -/
def splitOnComma (s : String) : List String :=
  (splitOnCommaList s.toList).map (fun l => ⟨l⟩)

/-- `beginsWith n h`: the list `n` is an initial segment of `h`. -/
def beginsWith : List Char → List Char → Bool
  | [], _ => true
  | _ :: _, [] => false
  | a :: as, b :: bs => a = b && beginsWith as bs

/-- `containsSeq n h`: the list `n` occurs contiguously inside `h`
(Python `n in h` for strings, on the character lists). -/
def containsSeq : List Char → List Char → Bool
  | n, [] => beginsWith n []
  | n, c :: t => beginsWith n (c :: t) || containsSeq n t

/-- Python `needle in hay` for strings. -/
def strContains (hay needle : String) : Bool :=
  containsSeq needle.toList hay.toList

theorem beginsWith_iff (n h : List Char) :
    beginsWith n h = true ↔ ∃ t, h = n ++ t := by
  induction n generalizing h with
  | nil => simp [beginsWith]
  | cons a as ih =>
    cases h with
    | nil => simp [beginsWith]
    | cons b bs =>
      simp only [beginsWith, Bool.and_eq_true, decide_eq_true_eq, ih, List.cons_append,
        List.cons.injEq]
      constructor
      · rintro ⟨rfl, t, rfl⟩
        exact ⟨t, rfl, rfl⟩
      · rintro ⟨t, rfl, rfl⟩
        exact ⟨rfl, t, rfl⟩

theorem containsSeq_iff (n h : List Char) :
    containsSeq n h = true ↔ ∃ p q, h = p ++ n ++ q := by
  induction h with
  | nil =>
    simp only [containsSeq, beginsWith_iff]
    constructor
    · rintro ⟨t, ht⟩
      exact ⟨[], t, by simpa using ht⟩
    · rintro ⟨p, q, hpq⟩
      have h := hpq.symm
      simp only [List.append_eq_nil] at h
      exact ⟨[], by simp [h.1.2]⟩
  | cons c t ih =>
    simp only [containsSeq, Bool.or_eq_true, beginsWith_iff, ih]
    constructor
    · rintro (⟨r, hr⟩ | ⟨p, q, rfl⟩)
      · exact ⟨[], r, by simpa using hr⟩
      · exact ⟨c :: p, q, rfl⟩
    · rintro ⟨p, q, hpq⟩
      cases p with
      | nil => exact Or.inl ⟨q, by simpa using hpq⟩
      | cons x xs =>
        simp only [List.cons_append, List.cons.injEq] at hpq
        exact Or.inr ⟨xs, q, hpq.2⟩

/-- One candidate of the geocoding service's JSON array: its `lat` and `lon`
fields, already parsed as floats (`float(geo_data[0]["lat"])`). -/
structure GeoResult where
  lat : ℚ
  lon : ℚ
deriving DecidableEq

/-- The geocoding HTTP response: status code and parsed JSON candidate list. -/
structure GeoResponse where
  status_code : Nat
  json : List GeoResult
deriving DecidableEq

/-- `geocode_location` (src lines 32-40), given the HTTP response it observed:
on status 200 with a non-empty candidate list, the first candidate's
coordinates; otherwise `(None, None)`. A transport error is modelled one
level up (the function body has no exception handler, so a raising
`requests.get` propagates out of it). -/
def geocode_location (resp : GeoResponse) : Option ℚ × Option ℚ :=
  if resp.status_code = 200 then
    match resp.json with
    | [] => (none, none)
    | r :: _ => (some r.lat, some r.lon)
  else (none, none)

/-- One element of the Overpass response's `elements` array: optional
top-level `lat` and `lon` keys (`element.get("lat")` defaults to `None`),
and the `tags` mapping. -/
structure OverpassElement where
  lat : Option ℚ
  lon : Option ℚ
  tags : List (String × String)
deriving DecidableEq

/-- The normalized restaurant record appended by the loop in
`fetch_nearby_restaurants` (src lines 67-73). `lat`/`lon` are optional
because `element.get` supplies no default for them. -/
structure RestaurantRecord where
  name : String
  lat : Option ℚ
  lon : Option ℚ
  address : String
  cuisine : String
deriving DecidableEq

/-- Normalization of one raw element (body of the loop at src lines 56-73):
defensive tag extraction with documented defaults, and the address joined
from house number, street, city, postcode with `", "`, dropping falsy
(empty) parts — `", ".join(filter(None, [housenumber, street, city, postcode]))`. -/
def normalizeElement (element : OverpassElement) : RestaurantRecord :=
  let tags := element.tags
  let name := (tags.lookup "name").getD "Unnamed"
  let cuisine_raw := (tags.lookup "cuisine").getD "Unknown cuisine"
  let street := (tags.lookup "addr:street").getD ""
  let housenumber := (tags.lookup "addr:housenumber").getD ""
  let city := (tags.lookup "addr:city").getD ""
  let postcode := (tags.lookup "addr:postcode").getD ""
  let address := String.intercalate ", "
    (([housenumber, street, city, postcode]).filter (fun p => p ≠ ""))
  { name := name, lat := element.lat, lon := element.lon,
    address := address, cuisine := cuisine_raw }

/-- Outcome of the Overpass interaction inside the try-block of
`fetch_nearby_restaurants`: either the parsed `elements` list, or an
exception (transport error, JSON-decode error, or anything else raised
before the return). -/
inductive FetchResult where
  | success (elements : List OverpassElement)
  | failure (msg : String)
deriving DecidableEq

/-- `fetch_nearby_restaurants` (src lines 43-77), given the outcome of its
try-block's network/parse phase. Returns the normalized records, paired
with whether `st.error` was shown: on any exception the handler reports
the error and returns `[]`. -/
def fetch_nearby_restaurants (res : FetchResult) : List RestaurantRecord × Bool :=
  match res with
  | .success elements => (elements.map normalizeElement, false)
  | .failure _ => ([], true)

/-- The parsed parts of one record's raw cuisine field (src line 106):
`[c.strip() for c in raw_cuisine.replace(';', ',').split(',')]`. -/
def cuisineParts (raw_cuisine : String) : List String :=
  (splitOnComma (replaceSemi raw_cuisine)).map pyStrip

/-- Inner loop of the cuisine extraction (src lines 106-109): add every
non-empty part whose lowercasing is not `"unknown cuisine"` to the set. -/
def addLabels (acc : Finset String) (raw_cuisine : String) : Finset String :=
  (cuisineParts raw_cuisine).foldl
    (fun a c => if c ≠ "" ∧ pyLower c ≠ "unknown cuisine" then insert c a else a) acc

/-- The cuisine extraction loop (src lines 102-109): fold `addLabels` over
the session's records, starting from the empty set. -/
def extractCuisines (restaurants : List RestaurantRecord) : Finset String :=
  restaurants.foldl (fun a r => addLabels a r.cuisine) ∅

/-- The cuisine filter (src lines 117-122): for a non-sentinel selection,
keep the records whose raw cuisine field contains the selection
case-insensitively; the sentinel `"All cuisines"` keeps everything. -/
def filterByCuisine (restaurants : List RestaurantRecord)
    (selected_cuisine : String) : List RestaurantRecord :=
  if selected_cuisine ≠ "All cuisines" then
    restaurants.filter (fun r => strContains (pyLower r.cuisine) (pyLower selected_cuisine))
  else restaurants

/-- The Streamlit session state (src lines 14-24). -/
structure SessionState where
  location_name : String
  lat : ℚ
  lon : ℚ
  zoom : Nat
  restaurants : List RestaurantRecord
deriving DecidableEq

/-- The defaults installed on first load (src lines 15-24). -/
def initialState : SessionState :=
  { location_name := "Seattle, Washington, USA",
    lat := (47.6062 : ℚ), lon := (-122.3321 : ℚ), zoom := 12, restaurants := [] }

/-- Python truthiness of a geocode coordinate (`if lat and lon:`):
`None` and `0.0` are falsy, every other float truthy. -/
def pyTruthy : Option ℚ → Bool
  | none => false
  | some q => decide (q ≠ 0)

/-- The inputs one script run depends on: the form state, and the outcomes
the two network calls would have if invoked on this run. -/
structure RenderInput where
  submitted : Bool
  user_input : String
  geo : Except String GeoResponse
  fetch : FetchResult

/-- Observable outcome of the submit/initial-fetch phase of one script run
(src lines 80-95): the session state afterwards, whether the
location-not-found warning was shown, whether a POI fetch was invoked and
whether it reported an error, and an exception that propagated uncaught
(aborting the run; session state keeps the values it had at that point). -/
structure RenderResult where
  state : SessionState
  warned_not_found : Bool
  fetch_invoked : Bool
  fetch_error_reported : Bool
  uncaught : Option String
deriving DecidableEq

/-- The module-level submit / initial-fetch logic (src lines 80-95).
`if submitted and user_input:` geocodes; a transport error there is
uncaught and aborts the run before any session mutation. On a truthy
coordinate pair the session is updated and the POI fetch runs; otherwise
only the warning is shown. Without a submission, the fetch runs exactly
when the record list is falsy (empty). -/
def runRender (s : SessionState) (inp : RenderInput) : RenderResult :=
  if inp.submitted && inp.user_input ≠ "" then
    match inp.geo with
    | .error e => ⟨s, false, false, false, some e⟩
    | .ok resp =>
      let lat := (geocode_location resp).1
      let lon := (geocode_location resp).2
      if pyTruthy lat && pyTruthy lon then
        let fr := fetch_nearby_restaurants inp.fetch
        ⟨{ s with
             lat := lat.getD 0,
             lon := lon.getD 0,
             location_name := inp.user_input,
             restaurants := fr.1 },
          false, true, fr.2, none⟩
      else ⟨s, true, false, false, none⟩
  else
    if s.restaurants.isEmpty then
      let fr := fetch_nearby_restaurants inp.fetch
      ⟨{ s with restaurants := fr.1 }, false, true, fr.2, none⟩
    else ⟨s, false, false, false, none⟩

/-! ## Helper lemmas about the cuisine extraction fold -/

theorem mem_addLabels (x : String) (acc : Finset String) (raw : String) :
    x ∈ addLabels acc raw ↔
      x ∈ acc ∨ (x ∈ cuisineParts raw ∧ x ≠ "" ∧ pyLower x ≠ "unknown cuisine") := by
  unfold addLabels
  generalize cuisineParts raw = l
  induction l generalizing acc with
  | nil => simp
  | cons c cs ih =>
    simp only [List.foldl_cons, ih]
    by_cases hc : c ≠ "" ∧ pyLower c ≠ "unknown cuisine"
    · rw [if_pos hc]
      simp only [Finset.mem_insert]
      constructor
      · rintro ((rfl | hacc) | ⟨hcs, hx⟩)
        · exact Or.inr ⟨List.mem_cons_self _ _, hc⟩
        · exact Or.inl hacc
        · exact Or.inr ⟨List.mem_cons_of_mem _ hcs, hx⟩
      · rintro (hacc | ⟨hmem, hx⟩)
        · exact Or.inl (Or.inr hacc)
        · rcases List.mem_cons.mp hmem with rfl | hcs
          · exact Or.inl (Or.inl rfl)
          · exact Or.inr ⟨hcs, hx⟩
    · rw [if_neg hc]
      constructor
      · rintro (hacc | ⟨hcs, hx⟩)
        · exact Or.inl hacc
        · exact Or.inr ⟨List.mem_cons_of_mem _ hcs, hx⟩
      · rintro (hacc | ⟨hmem, hx⟩)
        · exact Or.inl hacc
        · rcases List.mem_cons.mp hmem with rfl | hcs
          · exact absurd hx hc
          · exact Or.inr ⟨hcs, hx⟩

theorem mem_extractCuisines (x : String) (rs : List RestaurantRecord) :
    x ∈ extractCuisines rs ↔
      ∃ r ∈ rs, x ∈ cuisineParts r.cuisine ∧ x ≠ "" ∧ pyLower x ≠ "unknown cuisine" := by
  unfold extractCuisines
  suffices h : ∀ acc : Finset String,
      x ∈ rs.foldl (fun a r => addLabels a r.cuisine) acc ↔
        x ∈ acc ∨ ∃ r ∈ rs,
          x ∈ cuisineParts r.cuisine ∧ x ≠ "" ∧ pyLower x ≠ "unknown cuisine" by
    simpa using h ∅
  intro acc
  induction rs generalizing acc with
  | nil => simp
  | cons r rs ih =>
    simp only [List.foldl_cons, ih, mem_addLabels]
    constructor
    · rintro ((hacc | ⟨hp, hx⟩) | ⟨r', hr', h'⟩)
      · exact Or.inl hacc
      · exact Or.inr ⟨r, List.mem_cons_self _ _, hp, hx⟩
      · exact Or.inr ⟨r', List.mem_cons_of_mem _ hr', h'⟩
    · rintro (hacc | ⟨r', hmem, h'⟩)
      · exact Or.inl (Or.inl hacc)
      · rcases List.mem_cons.mp hmem with rfl | hr'
        · exact Or.inl (Or.inr ⟨h'.1, h'.2⟩)
        · exact Or.inr ⟨r', hr', h'⟩

/-! ## Concrete sample data used by witnesses and counterexamples -/

/-- A record whose raw cuisine field is "Pizzeria;regional" (spec's regression example). -/
def pizzeriaRec : RestaurantRecord :=
  ⟨"Trattoria", some 1, some 2, "", "Pizzeria;regional"⟩

/-- A record with a plain cuisine field. -/
def italianRec : RestaurantRecord :=
  ⟨"Roma", some 3, some 4, "", "Italian"⟩

/-- A record with a multi-valued cuisine field using both separators. -/
def veganRec : RestaurantRecord :=
  ⟨"Verde", some 5, some 6, "", "Italian; Pizza, Vegan"⟩

/-- A raw element carrying coordinates and a couple of tags. -/
def seattleElem : OverpassElement :=
  ⟨some 47, some (-122), [("name", "Salmon House"), ("cuisine", "Seafood")]⟩

/-- A raw element with no keys at all (no `lat`, no `lon`, no tags). -/
def bareElem : OverpassElement := ⟨none, none, []⟩

/-- A submission whose geocode succeeds with latitude 0.0. -/
def nullIslandInput : RenderInput :=
  ⟨true, "Null Island", .ok ⟨200, [⟨0, 5⟩]⟩, .success []⟩

/-- A non-submit script run whose Overpass call would fail. -/
def failFetchInput : RenderInput :=
  ⟨false, "", .ok ⟨200, []⟩, .failure "overpass down"⟩

/-- A non-submit script run whose Overpass call would succeed. -/
def renderAgainInput : RenderInput :=
  ⟨false, "", .ok ⟨200, []⟩, .success [seattleElem]⟩

/-- A session holding one fetched record. -/
def seattleState : SessionState :=
  { initialState with restaurants := [normalizeElement seattleElem] }

/-! ## Claim theorems -/

/-- Claim C1 (amended): for every submission whose geocode succeeds AND yields
a coordinate pair in which both floats are nonzero (the handler tests numeric
truthiness, `if lat and lon:`), the session coordinates are set to the
resolved pair, the location name to the submitted query, and the prior record
sequence is discarded and replaced by the result of the POI fetch performed
on this run. -/
theorem submit_success_spec (s : SessionState) (inp : RenderInput) (resp : GeoResponse)
    (la lo : ℚ) (hsub : inp.submitted = true) (hin : inp.user_input ≠ "")
    (hgeo : inp.geo = .ok resp) (hres : geocode_location resp = (some la, some lo))
    (hla : la ≠ 0) (hlo : lo ≠ 0) :
    runRender s inp =
      ⟨{ s with
           lat := la,
           lon := lo,
           location_name := inp.user_input,
           restaurants := (fetch_nearby_restaurants inp.fetch).1 },
        false, true, (fetch_nearby_restaurants inp.fetch).2, none⟩ := by
  unfold runRender
  rw [hsub, hgeo]
  simp [hin, hres, pyTruthy, hla, hlo]

/-- Witness for C1's amended theorem: a concrete successful submission
updates the whole session. -/
theorem submit_success_spec_witness :
    runRender initialState ⟨true, "Seattle", .ok ⟨200, [⟨47, -122⟩]⟩, .success [seattleElem]⟩ =
      ⟨{ initialState with
           lat := 47,
           lon := -122,
           location_name := "Seattle",
           restaurants := [normalizeElement seattleElem] },
        false, true, false, none⟩ :=
  submit_success_spec initialState ⟨true, "Seattle", .ok ⟨200, [⟨47, -122⟩]⟩, .success [seattleElem]⟩
    ⟨200, [⟨47, -122⟩]⟩ 47 (-122) rfl (by decide) rfl rfl (by norm_num) (by norm_num)

/-- Counterexample to C1 as stated: the geocode of "Null Island" succeeds
(HTTP 200, non-empty result list, first result's coordinates (0.0, 5.0) as
floats), yet the session is NOT updated — the handler shows the not-found
warning, keeps the old location name, and never fetches. -/
theorem submit_success_cex :
    geocode_location ⟨200, [⟨0, 5⟩]⟩ = (some 0, some 5) ∧
    runRender initialState nullIslandInput = ⟨initialState, true, false, false, none⟩ ∧
    initialState.location_name ≠ "Null Island" := by
  refine ⟨rfl, rfl, ?_⟩
  decide

/-- Claim C2 (amended): on a submission whose geocode call completes with an
HTTP failure or an empty result list, the session is unchanged, the
location-not-found warning is shown, and no POI fetch runs; on a geocoder
transport error, the exception is uncaught — the run aborts with the session
likewise unchanged and no fetch, but no warning is surfaced. -/
theorem geocode_notfound_spec (s : SessionState) (inp : RenderInput)
    (hsub : inp.submitted = true) (hin : inp.user_input ≠ "") :
    (∀ resp : GeoResponse, inp.geo = .ok resp → geocode_location resp = (none, none) →
      runRender s inp = ⟨s, true, false, false, none⟩) ∧
    (∀ e : String, inp.geo = .error e →
      runRender s inp = ⟨s, false, false, false, some e⟩) := by
  constructor
  · intro resp hgeo hnf
    unfold runRender
    rw [hsub, hgeo]
    simp [hin, hnf, pyTruthy]
  · intro e hgeo
    unfold runRender
    rw [hsub, hgeo]
    simp [hin]

/-- Witness for C2's amended theorem: a concrete submission on which the
geocoder returns an empty candidate list leaves the session untouched and
warns. -/
theorem geocode_notfound_spec_witness :
    runRender initialState ⟨true, "xyzxyzxyz123", .ok ⟨200, []⟩, .success []⟩ =
      ⟨initialState, true, false, false, none⟩ :=
  (geocode_notfound_spec initialState ⟨true, "xyzxyzxyz123", .ok ⟨200, []⟩, .success []⟩
    rfl (by decide)).1 ⟨200, []⟩ rfl rfl

/-- Counterexample to C2 as stated: on a geocoder transport error (one of the
claim's three not-found causes) no user-visible warning is surfaced — the
exception propagates uncaught out of the handler instead. -/
theorem geocode_notfound_cex :
    (runRender initialState ⟨true, "Paris", .error "connection error", .success []⟩).warned_not_found
        = false ∧
    (runRender initialState ⟨true, "Paris", .error "connection error", .success []⟩).uncaught
        = some "connection error" :=
  ⟨rfl, rfl⟩

/-- Claim C3 (amended): for every record sequence and every non-sentinel
selection, the filter returns the order-preserving subsequence of exactly
those records whose raw cuisine field contains the selection as a
case-insensitive substring; in particular, selecting "Pizzeria" includes a
record whose raw cuisine field is "Pizzeria;regional" (substring match
against the raw field), while selecting "pizza" does NOT include it, since
"pizza" is not a contiguous substring of that raw field. -/
theorem cuisine_filter_spec (rs : List RestaurantRecord) (sel : String)
    (hsel : sel ≠ "All cuisines") :
    (filterByCuisine rs sel).Sublist rs ∧
    (∀ r : RestaurantRecord, r ∈ filterByCuisine rs sel ↔
      r ∈ rs ∧ strContains (pyLower r.cuisine) (pyLower sel) = true) ∧
    filterByCuisine [pizzeriaRec] "Pizzeria" = [pizzeriaRec] ∧
    filterByCuisine [pizzeriaRec] "pizza" = [] := by
  unfold filterByCuisine
  rw [if_pos hsel]
  exact ⟨List.filter_sublist _, fun r => List.mem_filter, by decide, by decide⟩

/-- Witness for C3's amended theorem at a concrete selection and record list. -/
theorem cuisine_filter_spec_witness :
    filterByCuisine [pizzeriaRec] "Pizzeria" = [pizzeriaRec] :=
  (cuisine_filter_spec [pizzeriaRec] "Pizzeria" (by decide)).2.2.1

/-- Counterexample to C3 as stated: a record whose raw cuisine field is
"Pizzeria;regional" is NOT included when "pizza" is selected — "pizza" is
not a substring of the lowercased raw field ("pizzeria" diverges at its
fifth character). -/
theorem cuisine_filter_pizza_cex :
    pizzeriaRec.cuisine = "Pizzeria;regional" ∧
    strContains (pyLower "Pizzeria;regional") (pyLower "pizza") = false ∧
    filterByCuisine [pizzeriaRec] "pizza" = [] := by
  refine ⟨rfl, by decide, by decide⟩

/-- Claim C4 (amended): the filter's pass-through sentinel is the
case-sensitive string "All cuisines" (capital A): with that selection the
filter returns its input sequence unchanged for every input; the lowercase
string "all cuisines" of the claim is NOT the sentinel. -/
theorem filter_sentinel_id (rs : List RestaurantRecord) :
    filterByCuisine rs "All cuisines" = rs := by
  simp [filterByCuisine]

/-- Counterexample to C4 as stated: with the claim's case-sensitive sentinel
spelling "all cuisines", the filter takes the substring branch and drops a
record whose cuisine does not contain "all cuisines", so the output is not
the input sequence. -/
theorem filter_sentinel_cex :
    filterByCuisine [italianRec] "all cuisines" = [] ∧
    [italianRec] ≠ ([] : List RestaurantRecord) := by
  exact ⟨by decide, by decide⟩

/-- Claim C5 (confirmed): the cuisine extractor's label set consists of
exactly the parts obtained from some record's raw cuisine field by replacing
';' with ',', splitting on ',' and trimming (`cuisineParts`), minus the empty
string and anything whose lowercasing is the sentinel "unknown cuisine"; in
particular it never contains "" or a case-insensitive "unknown cuisine"
variant, and on one record with raw field "Italian; Pizza, Vegan" it is
{"Italian", "Pizza", "Vegan"}. -/
theorem cuisine_extractor_spec (rs : List RestaurantRecord) :
    "" ∉ extractCuisines rs ∧
    (∀ l ∈ extractCuisines rs, pyLower l ≠ "unknown cuisine") ∧
    (∀ l : String, l ∈ extractCuisines rs ↔
      ∃ r ∈ rs, l ∈ cuisineParts r.cuisine ∧ l ≠ "" ∧ pyLower l ≠ "unknown cuisine") ∧
    extractCuisines [veganRec] = {"Italian", "Pizza", "Vegan"} := by
  refine ⟨?_, ?_, fun l => mem_extractCuisines l rs, ?_⟩
  · intro h
    rcases (mem_extractCuisines _ _).mp h with ⟨r, -, -, hne, -⟩
    exact hne rfl
  · intro l hl
    rcases (mem_extractCuisines _ _).mp hl with ⟨r, -, -, -, hlu⟩
    exact hlu
  · have h : extractCuisines [veganRec] = insert "Vegan" (insert "Pizza" (insert "Italian" ∅)) := rfl
    rw [h]
    ext x
    simp only [Finset.mem_insert, Finset.mem_singleton, Finset.not_mem_empty, or_false]
    tauto

/-- Claim C6 (confirmed): normalization takes the name tag (default
"Unnamed"), the cuisine tag (default "Unknown cuisine"), and joins house
number, street, city, postcode in that order with ", ", dropping empty or
absent parts; an element with no tags at all yields the record
⟨"Unnamed", lat, lon, "", "Unknown cuisine"⟩ — in particular an empty
address and no exception. -/
theorem normalizer_spec (e : OverpassElement) :
    (normalizeElement e).name = (e.tags.lookup "name").getD "Unnamed" ∧
    (normalizeElement e).cuisine = (e.tags.lookup "cuisine").getD "Unknown cuisine" ∧
    (normalizeElement e).address = String.intercalate ", "
      (([(e.tags.lookup "addr:housenumber").getD "", (e.tags.lookup "addr:street").getD "",
         (e.tags.lookup "addr:city").getD "", (e.tags.lookup "addr:postcode").getD ""]).filter
        (fun p => p ≠ "")) ∧
    normalizeElement ⟨some 1, some 2, []⟩ = ⟨"Unnamed", some 1, some 2, "", "Unknown cuisine"⟩ :=
  ⟨rfl, rfl, rfl, rfl⟩

/-- Claim C7 (confirmed): on any exception in its try-block (transport error,
JSON-decode error, or anything else) the POI fetch catches it, reports a
non-fatal error, and returns the empty sequence — which is the same record
output a genuinely empty result produces; the pipeline then continues with
the empty record set (here: the non-submit script run completes with no
uncaught exception and an empty session record list). -/
theorem fetch_failure_spec (msg : String) (s : SessionState) (g : Except String GeoResponse)
    (hs : s.restaurants = []) :
    fetch_nearby_restaurants (.failure msg) = ([], true) ∧
    (fetch_nearby_restaurants (.failure msg)).1 = (fetch_nearby_restaurants (.success [])).1 ∧
    runRender s ⟨false, "", g, .failure msg⟩ =
      ⟨{ s with restaurants := [] }, false, true, true, none⟩ := by
  refine ⟨rfl, rfl, ?_⟩
  unfold runRender
  simp [hs, fetch_nearby_restaurants]

/-- Witness for C7: a failing fetch on a concrete empty-session run. -/
theorem fetch_failure_spec_witness :
    runRender initialState ⟨false, "", .ok ⟨200, []⟩, .failure "boom"⟩ =
      ⟨{ initialState with restaurants := [] }, false, true, true, none⟩ :=
  (fetch_failure_spec "boom" initialState (.ok ⟨200, []⟩) rfl).2.2

/-- Claim C8 (amended): a record produced by normalization carries exactly
the raw element's `lat` and `lon` values: floats when those keys are present,
and the missing-value sentinel (None) — not a float — when a key is absent. -/
theorem record_coordinate_fields_spec (e : OverpassElement) :
    (normalizeElement e).lat = e.lat ∧
    (normalizeElement e).lon = e.lon ∧
    ((normalizeElement e).lat.isSome = e.lat.isSome ∧
     (normalizeElement e).lon.isSome = e.lon.isSome) :=
  ⟨rfl, rfl, rfl, rfl⟩

/-- Counterexample to C8 as stated: normalizing a raw element that lacks the
`lat` and `lon` keys produces a record, but its latitude and longitude
fields are the missing-value sentinel, not floats. -/
theorem record_float_fields_cex :
    (fetch_nearby_restaurants (.success [bareElem])).1 =
      [⟨"Unnamed", none, none, "", "Unknown cuisine"⟩] ∧
    ((fetch_nearby_restaurants (.success [bareElem])).1.map fun r => r.lat.isSome) = [false] ∧
    ((fetch_nearby_restaurants (.success [bareElem])).1.map fun r => r.lon.isSome) = [false] :=
  ⟨rfl, rfl, rfl⟩

/-- Claim C9 (amended): on a script run with no (non-empty) submission, the
POI fetch is re-invoked exactly when the session record set is empty — so
after a fetch failure left it empty, the very next such run re-fetches
automatically; only a non-empty record set suppresses the fetch (and then
the whole phase leaves the session unchanged). -/
theorem no_auto_refetch_spec (s : SessionState) (inp : RenderInput)
    (hns : ¬(inp.submitted = true ∧ inp.user_input ≠ "")) :
    ((runRender s inp).fetch_invoked = true ↔ s.restaurants = []) ∧
    (s.restaurants ≠ [] → runRender s inp = ⟨s, false, false, false, none⟩) := by
  cases hr : s.restaurants with
  | nil => simp [runRender, hns, hr]
  | cons a l => simp [runRender, hns, hr]

/-- Witness for C9's amended theorem: a non-submit run over a session with a
non-empty record set invokes no fetch and changes nothing. -/
theorem no_auto_refetch_spec_witness :
    runRender seattleState renderAgainInput = ⟨seattleState, false, false, false, none⟩ :=
  (no_auto_refetch_spec seattleState renderAgainInput (by decide)).2 (by decide)

/-- Counterexample to C9 as stated: a failed fetch leaves the session record
set empty with the error reported; the very next render step, with no
submission at all, re-invokes the fetch automatically. -/
theorem no_auto_refetch_cex :
    (runRender initialState failFetchInput).state.restaurants = [] ∧
    (runRender initialState failFetchInput).fetch_error_reported = true ∧
    renderAgainInput.submitted = false ∧
    (runRender (runRender initialState failFetchInput).state renderAgainInput).fetch_invoked
      = true :=
  ⟨rfl, rfl, rfl, rfl⟩

/-- Claim C10 (confirmed): when the geocode succeeds but yields latitude or
longitude 0.0, the submit handler's truthiness test `if lat and lon:` fails,
so the submission is treated exactly like a failed geocode: session
unchanged, not-found warning shown, no fetch. -/
theorem zero_coordinate_spec (s : SessionState) (inp : RenderInput) (resp : GeoResponse)
    (la lo : ℚ) (hsub : inp.submitted = true) (hin : inp.user_input ≠ "")
    (hgeo : inp.geo = .ok resp) (hres : geocode_location resp = (some la, some lo))
    (h0 : la = 0 ∨ lo = 0) :
    runRender s inp = ⟨s, true, false, false, none⟩ := by
  unfold runRender
  rw [hsub, hgeo]
  cases h0 with
  | inl h => simp [hin, hres, pyTruthy, h]
  | inr h => simp [hin, hres, pyTruthy, h]

/-- Witness for C10: the concrete (0.0, 5.0) geocode result is handled as
location-not-found. -/
theorem zero_coordinate_spec_witness :
    runRender initialState nullIslandInput = ⟨initialState, true, false, false, none⟩ :=
  zero_coordinate_spec initialState nullIslandInput ⟨200, [⟨0, 5⟩]⟩ 0 5 rfl (by decide)
    rfl rfl (Or.inl rfl)
